import Mathlib

/-!
Verification of the FAIR launch platform bonding curve
(`contracts/LaunchToken.sol`: contracts `LaunchToken` and `BondingCurve`,
plus `contracts/TokenFactory.sol`).

The Solidity code is shallowly embedded over `Nat`: Solidity 0.8 checked
arithmetic reverts on overflow/underflow, and on all paths modelled here the
subtractions are guarded (proved or hypothesised) so `Nat` truncating
subtraction agrees with the EVM semantics; `uint256`-range overflow is
unreachable at the magnitudes the guards admit.  Reverts are modelled by
`Except`: an `error` result means the whole transaction reverts and the
pre-state is kept.
-/

deriving instance DecidableEq for Except

namespace Stealthly

/-- `GRADUATION_THRESHOLD = 8050 ether` (BondingCurve). -/
def GRADUATION_THRESHOLD : Nat := 8050 * 10 ^ 18

/-- `GRADUATION_SUPPLY = 700_000_000 * 1e18` (BondingCurve). -/
def GRADUATION_SUPPLY : Nat := 700000000 * 10 ^ 18

/-- `VIRTUAL_FAIR_RESERVES = 570 ether` (BondingCurve). -/
def VIRTUAL_FAIR_RESERVES : Nat := 570 * 10 ^ 18

/-- `VIRTUAL_TOKEN_RESERVES = 750_000_000 * 1e18` (BondingCurve). -/
def VIRTUAL_TOKEN_RESERVES : Nat := 750000000 * 10 ^ 18

/-- `ANTI_DUMP_DURATION = 15 minutes` (BondingCurve), in seconds. -/
def ANTI_DUMP_DURATION : Nat := 15 * 60

/-- `INITIAL_SELL_FEE = 2000` basis points (BondingCurve). -/
def INITIAL_SELL_FEE : Nat := 2000

/-- `FINAL_SELL_FEE = 100` basis points (BondingCurve). -/
def FINAL_SELL_FEE : Nat := 100

/-- The mutable trading state of one `BondingCurve` instance:
`tokensSold`, `FAIRRaised`, `graduated`. -/
structure CurveState where
  tokensSold : Nat
  FAIRRaised : Nat
  graduated : Bool
deriving Repr, DecidableEq

/-- Curve state at deployment. -/
def initialCurveState : CurveState := ⟨0, 0, false⟩

/-- `BondingCurve._calculateTokensOut(FAIRAmount)`: constant-product token
output for a net FAIR input, clamped to the remaining graduation supply. -/
def calculateTokensOut (s : CurveState) (FAIRAmount : Nat) : Nat :=
  let currentFAIRReserve := VIRTUAL_FAIR_RESERVES + s.FAIRRaised
  let currentTokenReserve := VIRTUAL_TOKEN_RESERVES - s.tokensSold
  let newFAIRReserve := currentFAIRReserve + FAIRAmount
  let k := currentFAIRReserve * currentTokenReserve
  let newTokenReserve := k / newFAIRReserve
  let tokensOut := currentTokenReserve - newTokenReserve
  let maxTokens := GRADUATION_SUPPLY - s.tokensSold
  if tokensOut > maxTokens then maxTokens else tokensOut

/-- `BondingCurve._calculateFAIROut(tokenAmount)`: constant-product FAIR
output for a token amount sold back to the curve. -/
def calculateFAIROut (s : CurveState) (tokenAmount : Nat) : Nat :=
  let currentFAIRReserve := VIRTUAL_FAIR_RESERVES + s.FAIRRaised
  let currentTokenReserve := VIRTUAL_TOKEN_RESERVES - s.tokensSold
  let newTokenReserve := currentTokenReserve + tokenAmount
  let k := currentFAIRReserve * currentTokenReserve
  let newFAIRReserve := k / newTokenReserve
  currentFAIRReserve - newFAIRReserve

/-- `BondingCurve.getCurrentSellFee()`, parameterised by `launchTime` and the
current `block.timestamp` (on chain `launchTime ≤ timestamp` always holds). -/
def getCurrentSellFee (launchTime timestamp : Nat) : Nat :=
  if timestamp ≥ launchTime + ANTI_DUMP_DURATION then FINAL_SELL_FEE
  else
    let elapsed := timestamp - launchTime
    let feeReduction := (INITIAL_SELL_FEE - FINAL_SELL_FEE) * elapsed / ANTI_DUMP_DURATION
    INITIAL_SELL_FEE - feeReduction

/-- The sell fee as a function of elapsed time alone (the abstraction that
`getCurrentSellFee` computes for `elapsed = timestamp - launchTime`). -/
def feeOfElapsed (elapsed : Nat) : Nat :=
  if elapsed ≥ ANTI_DUMP_DURATION then FINAL_SELL_FEE
  else INITIAL_SELL_FEE - (INITIAL_SELL_FEE - FINAL_SELL_FEE) * elapsed / ANTI_DUMP_DURATION

/-- `BondingCurve.getCurrentPrice()`. -/
def getCurrentPrice (s : CurveState) : Nat :=
  (VIRTUAL_FAIR_RESERVES + s.FAIRRaised) * 10 ^ 18 /
    (VIRTUAL_TOKEN_RESERVES - s.tokensSold)

/-- `BondingCurve._executeGraduation()`, restricted to the curve-state fields.
The two `require`s at its entry (`!graduated`, `FAIRRaised ≥ THRESHOLD`) are
guaranteed by the only call sites, which invoke it with `graduated = false`
and under the threshold test.  `routerOk` is the outcome of the external
`addLiquidityFAIR` call: on success the curve keeps `graduated = true` and
resets `FAIRRaised`; in the `catch` branch `graduated` is set back to
`false` and `FAIRRaised` is left as it was. -/
def executeGraduation (routerOk : Bool) (s : CurveState) : CurveState :=
  if routerOk then { s with graduated := true, FAIRRaised := 0 }
  else { s with graduated := false }

/-- Revert reasons of the buy path (`notGraduated` modifier plus the
`require`s of `_buyTokensFor`). -/
inductive BuyError where
  | tokenGraduated
  | mustSendFAIR
  | curveComplete
  | insufficientAfterFees
  | noTokensCalculated
  | slippageExceeded
  | exceedsGraduationSupply
deriving Repr, DecidableEq

/-- `BondingCurve.buyTokens` / `_buyTokensFor`: guard chain, platform fee,
curve pricing, state update, and the graduation trigger.  `fpp` is the
immutable `platformFeePercent`; `routerOk` is the outcome of the external
liquidity-venue call should graduation be attempted.  On success, returns
the post-transaction curve state and the `tokensOut` minted to the
recipient. -/
def buyStep (fpp : Nat) (routerOk : Bool) (s : CurveState)
    (msgValue minTokensOut : Nat) : Except BuyError (CurveState × Nat) :=
  if s.graduated then .error .tokenGraduated
  else if msgValue = 0 then .error .mustSendFAIR
  else if ¬ s.tokensSold < GRADUATION_SUPPLY then .error .curveComplete
  else
    let platformFee := msgValue * fpp / 10000
    let buyAmount := msgValue - platformFee
    if buyAmount = 0 then .error .insufficientAfterFees
    else
      let tokensOut := calculateTokensOut s buyAmount
      if tokensOut = 0 then .error .noTokensCalculated
      else if tokensOut < minTokensOut then .error .slippageExceeded
      else if ¬ s.tokensSold + tokensOut ≤ GRADUATION_SUPPLY then
        .error .exceedsGraduationSupply
      else
        let s1 : CurveState :=
          { s with tokensSold := s.tokensSold + tokensOut,
                   FAIRRaised := s.FAIRRaised + buyAmount }
        let s2 :=
          if s1.FAIRRaised ≥ GRADUATION_THRESHOLD then executeGraduation routerOk s1
          else s1
        .ok (s2, tokensOut)

/-- Revert reasons of the sell path (`notGraduated` modifier plus the
`require`s of `sellTokens`). -/
inductive SellError where
  | tokenGraduated
  | invalidAmount
  | insufficientSupplySold
  | insufficientBalance
  | noFAIRCalculated
  | insufficientReserves
  | slippageExceeded
deriving Repr, DecidableEq

/-- `BondingCurve.sellTokens(tokenAmount, minFAIROut)`: guard chain,
reverse curve pricing, anti-dump fee, state update.  `senderBalance` is the
seller's token balance checked by `token.balanceOf(msg.sender)`.  On
success, returns the post-transaction state, the net FAIR paid to the
seller and the fee sent to the treasury. -/
def sellStep (launchTime timestamp : Nat) (s : CurveState)
    (senderBalance tokenAmount minFAIROut : Nat) :
    Except SellError (CurveState × Nat × Nat) :=
  if s.graduated then .error .tokenGraduated
  else if tokenAmount = 0 then .error .invalidAmount
  else if ¬ tokenAmount ≤ s.tokensSold then .error .insufficientSupplySold
  else if ¬ tokenAmount ≤ senderBalance then .error .insufficientBalance
  else
    let FAIROut := calculateFAIROut s tokenAmount
    if FAIROut = 0 then .error .noFAIRCalculated
    else if ¬ FAIROut ≤ s.FAIRRaised then .error .insufficientReserves
    else
      let sellFee := getCurrentSellFee launchTime timestamp
      let feeAmount := FAIROut * sellFee / 10000
      let netFAIROut := FAIROut - feeAmount
      if netFAIROut < minFAIROut then .error .slippageExceeded
      else
        .ok ({ s with tokensSold := s.tokensSold - tokenAmount,
                      FAIRRaised := s.FAIRRaised - FAIROut },
             netFAIROut, feeAmount)

/-- A buy transaction as a state transformer: a reverted buy leaves the
state unchanged. -/
def buyRun (fpp : Nat) (s : CurveState) (inp : Nat × Nat × Bool) : CurveState :=
  match buyStep fpp inp.2.2 s inp.1 inp.2.1 with
  | .ok (s', _) => s'
  | .error _ => s

/-- A sequence of buy transactions, each with its own `msg.value`,
`minTokensOut` and liquidity-venue outcome. -/
def runBuys (fpp : Nat) (inputs : List (Nat × Nat × Bool)) (s : CurveState) :
    CurveState :=
  inputs.foldl (buyRun fpp) s

/-- A sell transaction as a state transformer: a reverted sell leaves the
state unchanged. -/
def sellRun (launchTime timestamp : Nat) (s : CurveState)
    (senderBalance tokenAmount minFAIROut : Nat) : CurveState :=
  match sellStep launchTime timestamp s senderBalance tokenAmount minFAIROut with
  | .ok (s', _, _) => s'
  | .error _ => s

/-- `BondingCurve.previewBuy(FAIRAmount)`: the quadruple
`(tokensOut, newPrice, priceImpact, platformFee)`. -/
def previewBuy (fpp : Nat) (s : CurveState) (FAIRAmount : Nat) :
    Nat × Nat × Nat × Nat :=
  if FAIRAmount = 0 ∨ s.graduated then (0, 0, 0, 0)
  else
    let platformFee := FAIRAmount * fpp / 10000
    let buyAmount := FAIRAmount - platformFee
    if buyAmount = 0 then (0, 0, 0, platformFee)
    else
      let currentPrice := getCurrentPrice s
      let tokensOut := calculateTokensOut s buyAmount
      if tokensOut = 0 then (0, currentPrice, 0, platformFee)
      else
        let newFAIRReserve := VIRTUAL_FAIR_RESERVES + s.FAIRRaised + buyAmount
        let newTokenReserve := VIRTUAL_TOKEN_RESERVES - s.tokensSold - tokensOut
        let newPrice := newFAIRReserve * 10 ^ 18 / newTokenReserve
        let priceImpact :=
          if newPrice > currentPrice then (newPrice - currentPrice) * 10000 / currentPrice
          else 0
        let tokensOutFinal :=
          if s.tokensSold + tokensOut > GRADUATION_SUPPLY then
            GRADUATION_SUPPLY - s.tokensSold
          else tokensOut
        (tokensOutFinal, newPrice, priceImpact, platformFee)

/-- `BondingCurve.previewSell(tokenAmount)`: the quadruple
`(FAIROut, netFAIROut, sellFee, feeAmount)`. -/
def previewSell (launchTime timestamp : Nat) (s : CurveState) (tokenAmount : Nat) :
    Nat × Nat × Nat × Nat :=
  if tokenAmount = 0 ∨ s.graduated ∨ tokenAmount > s.tokensSold then (0, 0, 0, 0)
  else
    let FAIROut := calculateFAIROut s tokenAmount
    let sellFee := getCurrentSellFee launchTime timestamp
    let feeAmount := FAIROut * sellFee / 10000
    (FAIROut, FAIROut - feeAmount, sellFee, feeAmount)

/-- `LaunchToken._update(from, to, amount)` transfer gate: `true` when the
transfer is processed, `false` when it reverts with "Trading not enabled".
Addresses are modelled as `Nat` with `0` the zero address.  The `amount`
argument is part of the source signature; the gate itself never reads it. -/
def updateGate (minter : Nat) (tradingEnabled : Bool)
    (fromAddr toAddr amount : Nat) : Bool :=
  if fromAddr = 0 ∨ toAddr = 0 then true
  else if fromAddr = minter ∨ toAddr = minter then true
  else tradingEnabled

/-- Revert reason of `LaunchToken.setMinter`. -/
inductive SetMinterError where
  | minterAlreadySet
deriving Repr, DecidableEq

/-- `LaunchToken.setMinter(_minter)`: the stored `minter` must still be the
zero address; the caller (`msg.sender`) is taken as an argument because the
source function has no access-control check, so the result may not depend
on it.  Returns the new stored `minter` on success. -/
def setMinter (caller minter newMinter : Nat) : Except SetMinterError Nat :=
  if minter = 0 then .ok newMinter else .error .minterAlreadySet

/-- The clamp at the end of `_calculateTokensOut` bounds its result by the
remaining graduation supply, for every state and every input. -/
theorem calculateTokensOut_le_max (s : CurveState) (FAIRAmount : Nat) :
    calculateTokensOut s FAIRAmount ≤ GRADUATION_SUPPLY - s.tokensSold := by
  simp only [calculateTokensOut]
  split
  · omega
  · omega

/-- Characterisation of a successful buy: all guards of `_buyTokensFor`
passed, and the post-state is the guard-updated state, graduated or not
according to the threshold test and venue outcome. -/
theorem buyStep_ok_spec {fpp : Nat} {routerOk : Bool} {s : CurveState}
    {msgValue minTokensOut : Nat} {s' : CurveState} {out : Nat}
    (h : buyStep fpp routerOk s msgValue minTokensOut = .ok (s', out)) :
    s.graduated = false ∧ 0 < msgValue ∧ s.tokensSold < GRADUATION_SUPPLY ∧
    0 < msgValue - msgValue * fpp / 10000 ∧
    out = calculateTokensOut s (msgValue - msgValue * fpp / 10000) ∧
    0 < out ∧ minTokensOut ≤ out ∧
    s.tokensSold + out ≤ GRADUATION_SUPPLY ∧
    s' = (if GRADUATION_THRESHOLD ≤
              s.FAIRRaised + (msgValue - msgValue * fpp / 10000) then
            executeGraduation routerOk
              ⟨s.tokensSold + out,
               s.FAIRRaised + (msgValue - msgValue * fpp / 10000), s.graduated⟩
          else
            ⟨s.tokensSold + out,
             s.FAIRRaised + (msgValue - msgValue * fpp / 10000), s.graduated⟩) := by
  simp only [buyStep] at h
  split at h
  · simp at h
  next hg =>
  split at h
  · simp at h
  next hv =>
  split at h
  · simp at h
  next hsupply =>
  split at h
  · simp at h
  next hnet =>
  split at h
  · simp at h
  next hzero =>
  split at h
  · simp at h
  next hslip =>
  split at h
  · simp at h
  next hcap =>
  rw [Except.ok.injEq, Prod.mk.injEq] at h
  obtain ⟨hs', hout⟩ := h
  subst hout
  refine ⟨by simpa using hg, by omega, by omega, by omega, rfl, by omega, by omega,
    by omega, ?_⟩
  exact hs'.symm

/-- Characterisation of a successful sell: all guards of `sellTokens`
passed and the post-state subtracts the sold tokens and the gross FAIR
output. -/
theorem sellStep_ok_spec {launchTime timestamp : Nat} {s : CurveState}
    {senderBalance tokenAmount minFAIROut : Nat} {s' : CurveState}
    {net feeAmt : Nat}
    (h : sellStep launchTime timestamp s senderBalance tokenAmount minFAIROut =
          .ok (s', net, feeAmt)) :
    s.graduated = false ∧ 0 < tokenAmount ∧ tokenAmount ≤ s.tokensSold ∧
    tokenAmount ≤ senderBalance ∧
    0 < calculateFAIROut s tokenAmount ∧
    calculateFAIROut s tokenAmount ≤ s.FAIRRaised ∧
    feeAmt = calculateFAIROut s tokenAmount *
      getCurrentSellFee launchTime timestamp / 10000 ∧
    net = calculateFAIROut s tokenAmount - feeAmt ∧
    minFAIROut ≤ net ∧
    s' = { s with tokensSold := s.tokensSold - tokenAmount,
                  FAIRRaised := s.FAIRRaised - calculateFAIROut s tokenAmount } := by
  simp only [sellStep] at h
  split at h
  · simp at h
  next hg =>
  split at h
  · simp at h
  next hz =>
  split at h
  · simp at h
  next hsold =>
  split at h
  · simp at h
  next hbal =>
  split at h
  · simp at h
  next hfzero =>
  split at h
  · simp at h
  next hres =>
  split at h
  · simp at h
  next hslip =>
  rw [Except.ok.injEq, Prod.mk.injEq, Prod.mk.injEq] at h
  obtain ⟨hs', hnet, hfee⟩ := h
  subst hnet; subst hfee
  exact ⟨by simpa using hg, by omega, by omega, by omega, by omega, by omega,
    rfl, rfl, by omega, hs'.symm⟩

/-- A successful buy keeps `tokensSold ≤ GRADUATION_SUPPLY`; a reverted buy
keeps the state.  Hence one buy transaction preserves the cap. -/
theorem buyRun_preserves_cap (fpp : Nat) (s : CurveState) (inp : Nat × Nat × Bool)
    (h : s.tokensSold ≤ GRADUATION_SUPPLY) :
    (buyRun fpp s inp).tokensSold ≤ GRADUATION_SUPPLY := by
  unfold buyRun
  split
  next s' out heq =>
    obtain ⟨-, -, -, -, -, -, -, hcap, hs'⟩ := buyStep_ok_spec heq
    rw [hs']
    split
    · simp only [executeGraduation]
      split <;> simpa using hcap
    · simpa using hcap
  next => exact h

/-- Claim C1: over every sequence of buy transactions (arbitrary
`msg.value`, `minTokensOut` and venue outcomes), `tokensSold` never exceeds
`GRADUATION_SUPPLY`; moreover the amount computed by `_calculateTokensOut`
is always clamped to `GRADUATION_SUPPLY - tokensSold`, so each successful
buy preserves the cap. -/
theorem tokensSold_never_exceeds_graduation_supply
    (fpp : Nat) (inputs : List (Nat × Nat × Bool)) (s : CurveState)
    (h : s.tokensSold ≤ GRADUATION_SUPPLY) :
    (runBuys fpp inputs s).tokensSold ≤ GRADUATION_SUPPLY ∧
    (∀ buyAmount : Nat,
      calculateTokensOut s buyAmount ≤ GRADUATION_SUPPLY - s.tokensSold) := by
  refine ⟨?_, fun buyAmount => calculateTokensOut_le_max s buyAmount⟩
  induction inputs generalizing s with
  | nil => exact h
  | cons inp rest ih =>
      exact ih (buyRun fpp s inp) (buyRun_preserves_cap fpp s inp h)

/-- Claim C1 witness: the cap hypothesis holds in the initial state and the
invariant is preserved across a concrete sequence of buys. -/
theorem tokensSold_never_exceeds_graduation_supply_witness :
    initialCurveState.tokensSold ≤ GRADUATION_SUPPLY ∧
    (runBuys 100 [(10 ^ 18, 0, true), (8050 * 10 ^ 18, 0, false)]
      initialCurveState).tokensSold ≤ GRADUATION_SUPPLY :=
  ⟨by decide,
   (tokensSold_never_exceeds_graduation_supply 100
     [(10 ^ 18, 0, true), (8050 * 10 ^ 18, 0, false)]
     initialCurveState (by decide)).1⟩

/-- The reserve the constant-product curve has accumulated at the moment
`tokensSold` reaches `GRADUATION_SUPPLY`:
`VF * VT / (VT - GS) - VF` (§4.1 of the curve mathematics). -/
def curveEndpointReserve : Nat :=
  VIRTUAL_FAIR_RESERVES * VIRTUAL_TOKEN_RESERVES /
    (VIRTUAL_TOKEN_RESERVES - GRADUATION_SUPPLY) - VIRTUAL_FAIR_RESERVES

/-- Claim C4 counterexample: the constant-product relation evaluated at
`assetSold = GRADUATION_SUPPLY` does not give `GRADUATION_THRESHOLD`: the
constants are not consistent with the curve endpoint. -/
theorem curveEndpoint_ne_threshold :
    curveEndpointReserve ≠ GRADUATION_THRESHOLD := by
  decide

/-- Claim C4 (amended): the curve endpoint reserve is exactly `7980 ether`,
which falls short of `GRADUATION_THRESHOLD = 8050 ether` by `70 ether`. -/
theorem curveEndpoint_value :
    curveEndpointReserve = 7980 * 10 ^ 18 ∧
    GRADUATION_THRESHOLD = curveEndpointReserve + 70 * 10 ^ 18 := by
  constructor
  · decide
  · decide

/-- `getCurrentSellFee` computes exactly the elapsed-time abstraction
`feeOfElapsed` whenever the clock is at or past `launchTime`. -/
theorem getCurrentSellFee_eq_feeOfElapsed (launchTime t : Nat)
    (h : launchTime ≤ t) :
    getCurrentSellFee launchTime t = feeOfElapsed (t - launchTime) := by
  simp only [getCurrentSellFee, feeOfElapsed, INITIAL_SELL_FEE, FINAL_SELL_FEE,
    ANTI_DUMP_DURATION]
  split <;> split <;> omega

/-- `feeOfElapsed` is non-increasing. -/
theorem feeOfElapsed_antitone {e1 e2 : Nat} (h : e1 ≤ e2) :
    feeOfElapsed e2 ≤ feeOfElapsed e1 := by
  simp only [feeOfElapsed, INITIAL_SELL_FEE, FINAL_SELL_FEE, ANTI_DUMP_DURATION]
  split <;> split <;> omega

/-- Claim C6: the sell fee is a deterministic function of elapsed time since
`launchTime` only, is non-increasing in time, starts at `INITIAL_SELL_FEE`,
follows the linear decay formula inside the anti-dump window, and is pinned
at `FINAL_SELL_FEE` for every elapsed time at or past `ANTI_DUMP_DURATION`. -/
theorem getCurrentSellFee_decay (launchTime t1 t2 : Nat)
    (h1 : launchTime ≤ t1) (h2 : t1 ≤ t2) :
    getCurrentSellFee launchTime t1 = feeOfElapsed (t1 - launchTime) ∧
    getCurrentSellFee launchTime t2 ≤ getCurrentSellFee launchTime t1 ∧
    getCurrentSellFee launchTime launchTime = INITIAL_SELL_FEE ∧
    (t1 - launchTime < ANTI_DUMP_DURATION →
      getCurrentSellFee launchTime t1 =
        INITIAL_SELL_FEE -
          (INITIAL_SELL_FEE - FINAL_SELL_FEE) * (t1 - launchTime) /
            ANTI_DUMP_DURATION) ∧
    (ANTI_DUMP_DURATION ≤ t1 - launchTime →
      getCurrentSellFee launchTime t1 = FINAL_SELL_FEE) := by
  refine ⟨getCurrentSellFee_eq_feeOfElapsed launchTime t1 h1, ?_, ?_, ?_, ?_⟩
  · rw [getCurrentSellFee_eq_feeOfElapsed launchTime t1 h1,
      getCurrentSellFee_eq_feeOfElapsed launchTime t2 (le_trans h1 h2)]
    exact feeOfElapsed_antitone (by omega)
  · simp [getCurrentSellFee, INITIAL_SELL_FEE, FINAL_SELL_FEE, ANTI_DUMP_DURATION]
  · intro hlt
    simp only [getCurrentSellFee, INITIAL_SELL_FEE, FINAL_SELL_FEE,
      ANTI_DUMP_DURATION] at *
    split <;> omega
  · intro hge
    simp only [getCurrentSellFee, INITIAL_SELL_FEE, FINAL_SELL_FEE,
      ANTI_DUMP_DURATION] at *
    split <;> omega

/-- Claim C6 witness: the decay properties evaluated at launch time `1000`,
times `1450` and `1900` (inside and at the end of the window). -/
theorem getCurrentSellFee_decay_witness :
    ((1000 : Nat) ≤ 1450 ∧ (1450 : Nat) ≤ 1900) ∧
    (getCurrentSellFee 1000 1450 = feeOfElapsed (1450 - 1000) ∧
     getCurrentSellFee 1000 1900 ≤ getCurrentSellFee 1000 1450 ∧
     getCurrentSellFee 1000 1000 = INITIAL_SELL_FEE ∧
     (1450 - 1000 < ANTI_DUMP_DURATION →
       getCurrentSellFee 1000 1450 =
         INITIAL_SELL_FEE -
           (INITIAL_SELL_FEE - FINAL_SELL_FEE) * (1450 - 1000) /
             ANTI_DUMP_DURATION) ∧
     (ANTI_DUMP_DURATION ≤ 1450 - 1000 →
       getCurrentSellFee 1000 1450 = FINAL_SELL_FEE)) :=
  ⟨⟨by decide, by decide⟩,
   getCurrentSellFee_decay 1000 1450 1900 (by decide) (by decide)⟩

/-- Claim C7: when the external liquidity-venue call fails during graduation
(`routerOk = false`), the enclosing buy still succeeds, the post-state has
`graduated = false` (tentative graduation rolled back, curve tradable), the
buyer's minted amount `out` is positive and kept, and `tokensSold`,
`FAIRRaised` retain their post-buy values. -/
theorem graduationFailure_rollback (fpp : Nat) (s : CurveState) (v m : Nat)
    (s' : CurveState) (out : Nat)
    (hth : GRADUATION_THRESHOLD ≤ s.FAIRRaised + (v - v * fpp / 10000))
    (hbuy : buyStep fpp false s v m = .ok (s', out)) :
    s'.graduated = false ∧ 0 < out ∧
    s'.tokensSold = s.tokensSold + out ∧
    s'.FAIRRaised = s.FAIRRaised + (v - v * fpp / 10000) := by
  obtain ⟨hg, -, -, -, -, hout, -, -, hs'⟩ := buyStep_ok_spec hbuy
  rw [hs', if_pos hth]
  exact ⟨rfl, hout, rfl, rfl⟩

/-- Claim C7 witness: a buy of `8050 ether` (zero platform fee) from the
initial state crosses the threshold; with the venue failing, the buy
returns `ok`, the curve stays non-graduated and keeps the post-buy state. -/
theorem graduationFailure_rollback_witness :
    (GRADUATION_THRESHOLD ≤
        initialCurveState.FAIRRaised +
          (8050 * 10 ^ 18 - 8050 * 10 ^ 18 * 0 / 10000) ∧
      buyStep 0 false initialCurveState (8050 * 10 ^ 18) 0 =
        .ok (⟨700000000 * 10 ^ 18, 8050 * 10 ^ 18, false⟩,
             700000000 * 10 ^ 18)) ∧
    (CurveState.graduated ⟨700000000 * 10 ^ 18, 8050 * 10 ^ 18, false⟩ = false ∧
     0 < 700000000 * 10 ^ 18 ∧
     CurveState.tokensSold ⟨700000000 * 10 ^ 18, 8050 * 10 ^ 18, false⟩ =
       initialCurveState.tokensSold + 700000000 * 10 ^ 18 ∧
     CurveState.FAIRRaised ⟨700000000 * 10 ^ 18, 8050 * 10 ^ 18, false⟩ =
       initialCurveState.FAIRRaised +
         (8050 * 10 ^ 18 - 8050 * 10 ^ 18 * 0 / 10000)) :=
  ⟨⟨by decide, by decide⟩,
   graduationFailure_rollback 0 initialCurveState (8050 * 10 ^ 18) 0
     ⟨700000000 * 10 ^ 18, 8050 * 10 ^ 18, false⟩ (700000000 * 10 ^ 18)
     (by decide) (by decide)⟩

/-- Claim C8 counterexample: on a graduated curve, selling more than
`tokensSold` reverts with the graduated error, not the insufficient-supply
error, so the claim's "for every state" quantification fails. -/
theorem sell_insufficient_on_graduated_counterexample :
    (5 : Nat) < 7 ∧
    sellStep 0 0 ⟨5, 5, true⟩ 10 7 0 = .error .tokenGraduated ∧
    sellStep 0 0 ⟨5, 5, true⟩ 10 7 0 ≠ .error .insufficientSupplySold := by
  decide

/-- Claim C8 (amended): on every NON-graduated state, a sell of an amount
strictly greater than `tokensSold` reverts with the insufficient-supply
error and leaves the state exactly unchanged. -/
theorem sell_insufficientSupply_reverts (launchTime timestamp : Nat)
    (s : CurveState) (senderBalance tokenAmount minFAIROut : Nat)
    (hg : s.graduated = false) (hgt : s.tokensSold < tokenAmount) :
    sellStep launchTime timestamp s senderBalance tokenAmount minFAIROut =
      .error .insufficientSupplySold ∧
    sellRun launchTime timestamp s senderBalance tokenAmount minFAIROut = s := by
  have h1 : sellStep launchTime timestamp s senderBalance tokenAmount minFAIROut =
      .error .insufficientSupplySold := by
    simp only [sellStep, hg]
    rw [if_neg (by simp), if_neg (by omega), if_pos (by omega)]
  exact ⟨h1, by simp [sellRun, h1]⟩

/-- Claim C8 witness: a concrete non-graduated state with a sell of more
than `tokensSold` reverting with the insufficient-supply error and keeping
the state. -/
theorem sell_insufficientSupply_reverts_witness :
    (CurveState.graduated ⟨5, 5, false⟩ = false ∧
      CurveState.tokensSold ⟨5, 5, false⟩ < 7) ∧
    (sellStep 0 0 ⟨5, 5, false⟩ 10 7 0 = .error .insufficientSupplySold ∧
     sellRun 0 0 ⟨5, 5, false⟩ 10 7 0 = ⟨5, 5, false⟩) :=
  ⟨⟨by decide, by decide⟩,
   sell_insufficientSupply_reverts 0 0 ⟨5, 5, false⟩ 10 7 0
     (by decide) (by decide)⟩

/-- Claim C9: for transfers of a positive amount between two non-zero
accounts, a minter endpoint is always processed regardless of
`tradingEnabled`; otherwise the transfer is processed exactly when
`tradingEnabled` holds; and mint/burn (a zero endpoint) is always
processed. -/
theorem transferGate_spec (minter : Nat) (tradingEnabled : Bool)
    (fromAddr toAddr amount : Nat)
    (hf : fromAddr ≠ 0) (ht : toAddr ≠ 0) (hamt : 0 < amount) :
    ((fromAddr = minter ∨ toAddr = minter) →
        updateGate minter tradingEnabled fromAddr toAddr amount = true) ∧
    (fromAddr ≠ minter → toAddr ≠ minter →
        (updateGate minter tradingEnabled fromAddr toAddr amount = true ↔
          tradingEnabled = true)) ∧
    (∀ f' t' a' : Nat, (f' = 0 ∨ t' = 0) →
        updateGate minter tradingEnabled f' t' a' = true) := by
  unfold updateGate
  refine ⟨?_, ?_, ?_⟩
  · intro h
    rw [if_neg (by tauto), if_pos h]
  · intro h1 h2
    rw [if_neg (by tauto), if_neg (by tauto)]
  · intro f' t' a' h
    rw [if_pos h]

/-- Claim C9 witness: the gate evaluated with minter `3`, trading disabled,
accounts `1` and `2`, amount `5`. -/
theorem transferGate_spec_witness :
    ((1 : Nat) ≠ 0 ∧ (2 : Nat) ≠ 0 ∧ (0 : Nat) < 5) ∧
    ((((1 : Nat) = 3 ∨ (2 : Nat) = 3) → updateGate 3 false 1 2 5 = true) ∧
     ((1 : Nat) ≠ 3 → (2 : Nat) ≠ 3 →
        (updateGate 3 false 1 2 5 = true ↔ false = true)) ∧
     (∀ f' t' a' : Nat, (f' = 0 ∨ t' = 0) →
        updateGate 3 false f' t' a' = true)) :=
  ⟨⟨by decide, by decide, by decide⟩,
   transferGate_spec 3 false 1 2 5 (by decide) (by decide) (by decide)⟩

/-- Claim C10: `setMinter` succeeds exactly when the stored minter is still
the zero address, reverts with "Minter already set" otherwise, and its
outcome is independent of the caller: any account can claim minter rights
on a token whose minter has not been set. -/
theorem setMinter_oneTime_noAuth (caller minter newMinter : Nat) :
    (setMinter caller minter newMinter = .ok newMinter ↔ minter = 0) ∧
    (setMinter caller minter newMinter = .error .minterAlreadySet ↔
      minter ≠ 0) ∧
    setMinter caller minter newMinter = setMinter 0 minter newMinter := by
  unfold setMinter
  by_cases h : minter = 0 <;> simp [h]

/-- Claim C10 witness: with the minter unset, caller `7` (not the factory)
successfully binds minter `9`; with it set to `4`, every caller fails. -/
theorem setMinter_oneTime_noAuth_witness :
    setMinter 7 0 9 = .ok 9 ∧
    setMinter 7 4 9 = .error .minterAlreadySet ∧
    setMinter 7 4 9 = setMinter 0 4 9 := by
  exact ⟨(setMinter_oneTime_noAuth 7 0 9).1.mpr rfl,
    (setMinter_oneTime_noAuth 7 4 9).2.1.mpr (by decide),
    (setMinter_oneTime_noAuth 7 4 9).2.2⟩

/-- Claim C5 counterexample: in the initial state with a 1% platform fee,
buying with `1 ether` yields exactly `1300373036305364367151789` token
units (≈ 1,300,373 tokens), which deviates from 1,315,000 tokens by more
than 1%. -/
theorem scenarioA_outside_one_percent :
    buyStep 100 true initialCurveState (10 ^ 18) 0 =
      .ok (⟨1300373036305364367151789, 990000000000000000, false⟩,
           1300373036305364367151789) ∧
    (1315000 * 10 ^ 18 - 1300373036305364367151789) * 100 >
      1315000 * 10 ^ 18 := by
  decide

/-- Claim C5 (amended): the same buy yields exactly
`1300373036305364367151789` units, within 1.2% of 1,315,000 tokens (the
exact constant-product output, below the spec's linear approximation). -/
theorem scenarioA_within_1p2_percent :
    buyStep 100 true initialCurveState (10 ^ 18) 0 =
      .ok (⟨1300373036305364367151789, 990000000000000000, false⟩,
           1300373036305364367151789) ∧
    (1315000 * 10 ^ 18 - 1300373036305364367151789) * 1000 ≤
      12 * (1315000 * 10 ^ 18) := by
  decide

/-- The curve supply cap is below the virtual token reserves. -/
theorem graduationSupply_le_virtualTokenReserves :
    GRADUATION_SUPPLY ≤ VIRTUAL_TOKEN_RESERVES := by
  decide

/-- The result of `_calculateTokensOut` never exceeds the current (virtual
minus sold) token reserve. -/
theorem calculateTokensOut_le_reserve (s : CurveState) (b : Nat) :
    calculateTokensOut s b ≤ VIRTUAL_TOKEN_RESERVES - s.tokensSold := by
  have h := graduationSupply_le_virtualTokenReserves
  simp only [calculateTokensOut]
  split
  · omega
  · omega

/-- The result of `_calculateTokensOut` never exceeds the unclamped
constant-product output. -/
theorem calculateTokensOut_le_unclamped (s : CurveState) (b : Nat) :
    calculateTokensOut s b ≤
      (VIRTUAL_TOKEN_RESERVES - s.tokensSold) -
        (VIRTUAL_FAIR_RESERVES + s.FAIRRaised) *
          (VIRTUAL_TOKEN_RESERVES - s.tokensSold) /
          (VIRTUAL_FAIR_RESERVES + s.FAIRRaised + b) := by
  simp only [calculateTokensOut]
  split <;> omega

/-- Core rounding bound for a buy-then-sell round trip on the
constant-product curve: starting from reserve `C` and supply reserve `T`
with net buy input `b`, selling back any amount not exceeding the buy
output returns at most `b + 1` gross reserve. -/
theorem sellAfterBuy_FAIROut_le (C T b out : Nat)
    (hC : 0 < C) (hT : C + b ≤ T)
    (hout : out ≤ T - C * T / (C + b)) :
    (C + b) - (C + b) * (T - out) / T ≤ b + 1 := by
  have hTpos : 0 < T := by omega
  have hDpos : 0 < C + b := by omega
  have hqT : C * T / (C + b) ≤ T := by
    calc C * T / (C + b) ≤ C * T / C := Nat.div_le_div_left (by omega) hC
      _ = T := Nat.mul_div_cancel_left T hC
  have hdm := Nat.div_add_mod (C * T) (C + b)
  have hmlt : C * T % (C + b) < C + b := Nat.mod_lt _ hDpos
  have hq_le : C * T / (C + b) ≤ T - out := by omega
  have hmono : (C + b) * (C * T / (C + b)) ≤ (C + b) * (T - out) :=
    Nat.mul_le_mul_left _ hq_le
  have hdiv : C - 1 ≤ (C + b) * (T - out) / T := by
    rw [Nat.le_div_iff_mul_le hTpos, Nat.sub_mul, one_mul]
    omega
  omega

/-- Claim C2 counterexample: at the (reachable) state produced by buying
`1 ether` from the initial state at a 1% platform fee, buying `1 wei` and
immediately selling the received tokens back pays out `2 wei` net — the
round trip is profitable, violating `reserveOut ≤ reserveIn`. -/
theorem roundTrip_profitable_counterexample :
    buyStep 100 true initialCurveState (10 ^ 18) 0 =
      .ok (⟨1300373036305364367151789, 990000000000000000, false⟩,
           1300373036305364367151789) ∧
    buyStep 100 true ⟨1300373036305364367151789, 990000000000000000, false⟩
        1 0 =
      .ok (⟨1300373036305364368463020, 990000000000000001, false⟩, 1311231) ∧
    sellStep 0 900 ⟨1300373036305364368463020, 990000000000000001, false⟩
        1311231 1311231 0 =
      .ok (⟨1300373036305364367151789, 989999999999999999, false⟩, 2, 0) ∧
    (2 : Nat) > 1 := by
  decide

/-- Claim C2 (amended): the round trip can beat `reserveIn` by at most one
wei of integer-division rounding: for every non-graduated state whose
virtual reserves plus input stay below the remaining virtual supply, a buy
of `reserveIn` followed by a successful sell of the bought amount nets at
most `reserveIn + 1`. -/
theorem roundTrip_net_le_reserveIn_succ (fpp : Nat) (routerOk : Bool)
    (launchTime timestamp : Nat) (s : CurveState)
    (reserveIn minTokensOut senderBalance minFAIROut : Nat)
    (s1 : CurveState) (assetOut : Nat) (s2 : CurveState) (net feeAmt : Nat)
    (hsz : VIRTUAL_FAIR_RESERVES + s.FAIRRaised + reserveIn ≤
            VIRTUAL_TOKEN_RESERVES - s.tokensSold)
    (hbuy : buyStep fpp routerOk s reserveIn minTokensOut = .ok (s1, assetOut))
    (hsell : sellStep launchTime timestamp s1 senderBalance assetOut minFAIROut =
              .ok (s2, net, feeAmt)) :
    net ≤ reserveIn + 1 := by
  obtain ⟨hg, hv, hS, hb, houteq, houtpos, -, hcapS, hs1⟩ := buyStep_ok_spec hbuy
  obtain ⟨hg1, -, -, -, -, -, hfee, hnet, -, -⟩ := sellStep_ok_spec hsell
  have hVF : 0 < VIRTUAL_FAIR_RESERVES := by norm_num [VIRTUAL_FAIR_RESERVES]
  have hb_le : reserveIn - reserveIn * fpp / 10000 ≤ reserveIn := Nat.sub_le _ _
  have hszT : VIRTUAL_FAIR_RESERVES + s.FAIRRaised +
      (reserveIn - reserveIn * fpp / 10000) ≤
      VIRTUAL_TOKEN_RESERVES - s.tokensSold := by omega
  have hSVT : s.tokensSold ≤ VIRTUAL_TOKEN_RESERVES := by
    by_contra hc
    push_neg at hc
    have hz : VIRTUAL_TOKEN_RESERVES - s.tokensSold = 0 := by omega
    rw [hz] at hsz
    omega
  have hout_le : assetOut ≤ (VIRTUAL_TOKEN_RESERVES - s.tokensSold) -
      (VIRTUAL_FAIR_RESERVES + s.FAIRRaised) *
        (VIRTUAL_TOKEN_RESERVES - s.tokensSold) /
        (VIRTUAL_FAIR_RESERVES + s.FAIRRaised +
          (reserveIn - reserveIn * fpp / 10000)) := by
    rw [houteq]
    exact calculateTokensOut_le_unclamped s _
  have hout_le_T : assetOut ≤ VIRTUAL_TOKEN_RESERVES - s.tokensSold := by
    rw [houteq]
    exact calculateTokensOut_le_reserve s _
  have hs1' : s1 = ⟨s.tokensSold + assetOut,
      s.FAIRRaised + (reserveIn - reserveIn * fpp / 10000), false⟩ := by
    by_cases hth : GRADUATION_THRESHOLD ≤
        s.FAIRRaised + (reserveIn - reserveIn * fpp / 10000)
    · rw [hs1, if_pos hth]
      cases routerOk with
      | true =>
          exfalso
          rw [hs1, if_pos hth] at hg1
          simp [executeGraduation] at hg1
      | false => simp [executeGraduation]
    · rw [hs1, if_neg hth]
      simp [hg]
  have hfair : calculateFAIROut s1 assetOut ≤
      (reserveIn - reserveIn * fpp / 10000) + 1 := by
    rw [hs1']
    simp only [calculateFAIROut]
    have e1 : VIRTUAL_TOKEN_RESERVES - (s.tokensSold + assetOut) + assetOut =
        VIRTUAL_TOKEN_RESERVES - s.tokensSold := by omega
    have e2 : VIRTUAL_TOKEN_RESERVES - (s.tokensSold + assetOut) =
        (VIRTUAL_TOKEN_RESERVES - s.tokensSold) - assetOut := by omega
    rw [e1, e2, ← Nat.add_assoc]
    exact sellAfterBuy_FAIROut_le
      (VIRTUAL_FAIR_RESERVES + s.FAIRRaised)
      (VIRTUAL_TOKEN_RESERVES - s.tokensSold)
      (reserveIn - reserveIn * fpp / 10000) assetOut
      (by omega) hszT hout_le
  omega

/-- Claim C2 (amended) witness: the counterexample round trip instantiates
the bound — its net payout `2` equals `reserveIn + 1 = 2`. -/
theorem roundTrip_net_le_reserveIn_succ_witness :
    (VIRTUAL_FAIR_RESERVES + (990000000000000000 : Nat) + 1 ≤
        VIRTUAL_TOKEN_RESERVES - 1300373036305364367151789 ∧
      buyStep 100 true ⟨1300373036305364367151789, 990000000000000000, false⟩
          1 0 =
        .ok (⟨1300373036305364368463020, 990000000000000001, false⟩,
             1311231) ∧
      sellStep 0 900 ⟨1300373036305364368463020, 990000000000000001, false⟩
          1311231 1311231 0 =
        .ok (⟨1300373036305364367151789, 989999999999999999, false⟩, 2, 0)) ∧
    (2 : Nat) ≤ 1 + 1 :=
  ⟨⟨by decide, by decide, by decide⟩,
   roundTrip_net_le_reserveIn_succ 100 true 0 900
     ⟨1300373036305364367151789, 990000000000000000, false⟩ 1 0 1311231 0
     ⟨1300373036305364368463020, 990000000000000001, false⟩ 1311231
     ⟨1300373036305364367151789, 989999999999999999, false⟩ 2 0
     (by decide) (by decide) (by decide)⟩

/-- Claim C3 counterexample: `previewSell` has no reserve-solvency check,
so it can overstate the real path.  The state
`⟨1300373036305364367151789, 989999999999999999, false⟩` is reachable
(buy `1 ether`, buy `1 wei`, sell the `1311231` units back); there, selling
the full `tokensSold` computes `FAIROut = FAIRRaised + 1`, so the real
`sellTokens` reverts with the insufficient-reserves error while
`previewSell` reports a positive net payout of `980100000000000000` wei —
the claimed equality with the real path's delivery (and the
never-overstate guarantee) fails. -/
theorem previewSell_overstates_reverting_sell :
    buyStep 100 true initialCurveState (10 ^ 18) 0 =
      .ok (⟨1300373036305364367151789, 990000000000000000, false⟩,
           1300373036305364367151789) ∧
    buyStep 100 true ⟨1300373036305364367151789, 990000000000000000, false⟩
        1 0 =
      .ok (⟨1300373036305364368463020, 990000000000000001, false⟩, 1311231) ∧
    sellStep 0 900 ⟨1300373036305364368463020, 990000000000000001, false⟩
        1311231 1311231 0 =
      .ok (⟨1300373036305364367151789, 989999999999999999, false⟩, 2, 0) ∧
    sellStep 0 900 ⟨1300373036305364367151789, 989999999999999999, false⟩
        1300373036305364367151789 1300373036305364367151789 0 =
      .error .insufficientReserves ∧
    previewSell 0 900 ⟨1300373036305364367151789, 989999999999999999, false⟩
        1300373036305364367151789 =
      (990000000000000000, 980100000000000000, 100, 9900000000000000) ∧
    (0 : Nat) < 980100000000000000 := by
  decide

/-- Claim C3 (amended): previews agree with the real paths' rounding on
every path the real execution completes.  The token amount reported by
`previewBuy` equals the amount the real buy path delivers for the same
input in the same state (and is `0` exactly when that path reverts with an
unconstrained `minTokensOut`); and whenever the real sell path succeeds,
`previewSell` reports exactly its gross output, net output, fee rate and
fee amount.  (When the sell path reverts for lack of reserves,
`previewSell` — which omits the `FAIROut ≤ FAIRRaised` check — can report
a positive payout the real path does not deliver, as the counterexample
shows.) -/
theorem preview_matches_execution (fpp : Nat) (routerOk : Bool)
    (launchTime timestamp : Nat) (s : CurveState)
    (FAIRAmount senderBalance tokenAmount minFAIROut : Nat)
    (hcap : s.tokensSold ≤ GRADUATION_SUPPLY) :
    (previewBuy fpp s FAIRAmount).1 =
      (match buyStep fpp routerOk s FAIRAmount 0 with
       | .ok (_, out) => out
       | .error _ => 0) ∧
    (∀ (s2 : CurveState) (net feeAmt : Nat),
      sellStep launchTime timestamp s senderBalance tokenAmount minFAIROut =
          .ok (s2, net, feeAmt) →
        previewSell launchTime timestamp s tokenAmount =
          (calculateFAIROut s tokenAmount, net,
           getCurrentSellFee launchTime timestamp, feeAmt)) := by
  constructor
  · by_cases hg : s.graduated
    · simp [previewBuy, buyStep, hg]
    · by_cases hv : FAIRAmount = 0
      · simp [previewBuy, buyStep, hv, hg]
      · by_cases hb : FAIRAmount - FAIRAmount * fpp / 10000 = 0
        · by_cases hS : s.tokensSold < GRADUATION_SUPPLY <;>
            simp [previewBuy, buyStep, hg, hv, hb, hS]
        · by_cases hS : s.tokensSold < GRADUATION_SUPPLY
          · by_cases ht : calculateTokensOut s
                (FAIRAmount - FAIRAmount * fpp / 10000) = 0
            · simp [previewBuy, buyStep, hg, hv, hb, hS, ht]
            · have hclamp := calculateTokensOut_le_max s
                (FAIRAmount - FAIRAmount * fpp / 10000)
              have hle : s.tokensSold + calculateTokensOut s
                  (FAIRAmount - FAIRAmount * fpp / 10000) ≤
                  GRADUATION_SUPPLY := by omega
              have hnotgt : ¬ s.tokensSold + calculateTokensOut s
                  (FAIRAmount - FAIRAmount * fpp / 10000) >
                  GRADUATION_SUPPLY := by omega
              simp [previewBuy, buyStep, hg, hv, hb, hS, ht, hle, hnotgt]
          · have hclamp := calculateTokensOut_le_max s
              (FAIRAmount - FAIRAmount * fpp / 10000)
            have ht0 : calculateTokensOut s
                (FAIRAmount - FAIRAmount * fpp / 10000) = 0 := by omega
            simp [previewBuy, buyStep, hg, hv, hb, hS, ht0]
  · intro s2 net feeAmt hsell
    obtain ⟨hg, hz, hsold, -, -, -, hfee, hnet, -, -⟩ := sellStep_ok_spec hsell
    simp only [previewSell]
    rw [if_neg (by simp [hg]; omega)]
    subst hnet
    subst hfee
    rfl

/-- Claim C3 witness: the equivalence evaluated at a concrete reachable
state, buy input `1 ether` and a successful sell of `10^20` token units. -/
theorem preview_matches_execution_witness :
    (CurveState.tokensSold ⟨1300373036305364367151789, 990000000000000000,
        false⟩ ≤ GRADUATION_SUPPLY) ∧
    ((previewBuy 100 ⟨1300373036305364367151789, 990000000000000000, false⟩
        (10 ^ 18)).1 =
      (match buyStep 100 true
          ⟨1300373036305364367151789, 990000000000000000, false⟩
          (10 ^ 18) 0 with
       | .ok (_, out) => out
       | .error _ => 0) ∧
     (∀ (s2 : CurveState) (net feeAmt : Nat),
       sellStep 0 900 ⟨1300373036305364367151789, 990000000000000000, false⟩
           (10 ^ 20) (10 ^ 20) 0 = .ok (s2, net, feeAmt) →
         previewSell 0 900
             ⟨1300373036305364367151789, 990000000000000000, false⟩
             (10 ^ 20) =
           (calculateFAIROut
              ⟨1300373036305364367151789, 990000000000000000, false⟩
              (10 ^ 20), net, getCurrentSellFee 0 900, feeAmt))) :=
  ⟨by decide,
   preview_matches_execution 100 true 0 900
     ⟨1300373036305364367151789, 990000000000000000, false⟩
     (10 ^ 18) (10 ^ 20) (10 ^ 20) 0 (by decide)⟩

end Stealthly
